import Mathlib

/-!
Verification development for `src/flashLoanBot.js` (furucombo flash-loan
arbitrage bot).  The JavaScript source is shallowly embedded: token and
quotation records become Lean structures, the duck-typed logic resolution
(lines 5-29) becomes a total function over an optional module record, the
`MockLogic` stub (lines 32-38) becomes pure functions, and the method
`checkArbitrageOpportunity` (lines 61-98) becomes a function from a
quotation provider to an observable run record (the quotation calls made,
the console log events emitted, the values computed, and any caught error).
Amounts are ethers `BigNumber`s in the source and are embedded as `Int`;
all arithmetic in the source (`sub`, `gt`) is exact integer arithmetic.
-/

deriving instance DecidableEq for Except

/-- A token descriptor, as in the `TOKENS` table (src/flashLoanBot.js:46-49). -/
structure Token where
  chainId : Nat
  address : String
  decimals : Nat
  symbol : String
  name : String
deriving DecidableEq, Repr

/-- `CHAIN_ID = 1` (src/flashLoanBot.js:41). -/
def CHAIN_ID : Nat := 1

/-- `TOKENS.USDC` (src/flashLoanBot.js:47). -/
def USDC : Token :=
  ⟨CHAIN_ID, "0xA0b86991c6218b36c1d19D4a2e9Eb0cE3606eB48", 6, "USDC", "USD Coin"⟩

/-- `TOKENS.ETH` (src/flashLoanBot.js:48). -/
def ETH : Token :=
  ⟨CHAIN_ID, "0x0000000000000000000000000000000000000000", 18, "ETH", "Ether"⟩

/-- `SUSHISWAP_V2_PAIR_ADDRESS` (src/flashLoanBot.js:52). -/
def SUSHISWAP_V2_PAIR_ADDRESS : String := "0x397FF1542f962076d0BEEcb4798dA619dEFdFE2B"

/-- `UNISWAP_V3_POOL_ADDRESS` (src/flashLoanBot.js:53). -/
def UNISWAP_V3_POOL_ADDRESS : String := "0x4e68Ccd3E89f51C3074ca5072bbAC4F90096C57"

/-- The constructor field `this.flashLoanAmount = ethers.utils.parseUnits('100', 6)`
(src/flashLoanBot.js:58): 100 USDC in 6-decimal base units. -/
def flashLoanAmount : Int := 100000000

/-- Argument record of `getFlashLoanQuotation` (src/flashLoanBot.js:65). -/
structure FlashLoanParams where
  token : Token
  amount : Int
deriving DecidableEq, Repr

/-- Result record of `getFlashLoanQuotation`: `{ amount }`. -/
structure FlashLoanQuote where
  amount : Int
deriving DecidableEq, Repr

/-- Argument record of `getSwapQuotation` (src/flashLoanBot.js:71,78); the
source uses the field name `pairAddress` for the Sushiswap call and
`poolAddress` for the Uniswap call, unified here as `venueAddress`. -/
structure SwapParams where
  inputToken : Token
  outputToken : Token
  amount : Int
  venueAddress : String
deriving DecidableEq, Repr

/-- Result record of `getSwapQuotation`: `{ outputAmount }`. -/
structure SwapQuote where
  outputAmount : Int
deriving DecidableEq, Repr

/-- A flash-loan logic object: one quotation method that either yields a
quote or fails with an error message (a thrown JS error's `message`). -/
structure FlashLoanLogic where
  getFlashLoanQuotation : FlashLoanParams → Except String FlashLoanQuote

/-- A swap logic object: one quotation method. -/
structure SwapLogic where
  getSwapQuotation : SwapParams → Except String SwapQuote

/-- The three logic instances the evaluator constructs and calls
(src/flashLoanBot.js:64,70,77). -/
structure Provider where
  balancerV2FlashLoanLogic : FlashLoanLogic
  sushiswapV2SwapLogic : SwapLogic
  uniswapV3SwapLogic : SwapLogic

/-- `MockLogic.getFlashLoanQuotation = async (params) => ({ amount: params.amount })`
(src/flashLoanBot.js:33): echoes the requested amount, never fails. -/
def mockGetFlashLoanQuotation (params : FlashLoanParams) : Except String FlashLoanQuote :=
  .ok ⟨params.amount⟩

/-- `MockLogic.getSwapQuotation` (src/flashLoanBot.js:34-37): if the input
token's symbol is `'USDC'` it returns `ethers.utils.parseEther('0.04')`
(= 4 * 10^16), otherwise `ethers.utils.parseUnits('104', 6)` (= 104 * 10^6);
the requested amount is ignored. -/
def mockGetSwapQuotation (params : SwapParams) : Except String SwapQuote :=
  if params.inputToken.symbol = "USDC" then .ok ⟨40000000000000000⟩
  else .ok ⟨104000000⟩

/-- The provider obtained when all three logic slots are `MockLogic`
(the fallback configuration of src/flashLoanBot.js:28). -/
def mockProvider : Provider :=
  ⟨⟨mockGetFlashLoanQuotation⟩, ⟨mockGetSwapQuotation⟩, ⟨mockGetSwapQuotation⟩⟩

/-- A value looked up on the `@protocolink/core` module during logic
resolution (src/flashLoanBot.js:11-22): `mock` is the `MockLogic` function,
`fn` some other function value, `obj` a truthy non-function export. -/
inductive LogicVal where
  | mock
  | fn (name : String)
  | obj (name : String)
deriving DecidableEq, Repr

/-- The `typeof v === 'function'` test of src/flashLoanBot.js:25. -/
def LogicVal.isFunction : LogicVal → Bool
  | .obj _ => false
  | _ => true

/-- The lookups the loader performs on the `@protocolink/core` module
(src/flashLoanBot.js:11-22).  `none` models an absent/falsy lookup result;
`createLogic` is `none` when the module has no `createLogic` member, and its
result is `none` when the call returns a falsy value. -/
structure ProtoModule where
  balancerV2FlashLoanLogic : Option LogicVal
  logicsBalancerV2FlashLoanLogic : Option LogicVal
  sushiswapV2SwapLogic : Option LogicVal
  logicsSushiswapV2SwapLogic : Option LogicVal
  uniswapV3SwapLogic : Option LogicVal
  logicsUniswapV3SwapLogic : Option LogicVal
  createLogic : Option (String → Option LogicVal)

/-- One `a || b || c || MockLogic` resolution chain (src/flashLoanBot.js:11-14):
first truthy lookup wins, `MockLogic` is the final fallback. -/
def resolveLogic (direct viaLogics created : Option LogicVal) : LogicVal :=
  ((direct <|> viaLogics) <|> created).getD .mock

/-- The three module-level logic bindings after the try/catch of
src/flashLoanBot.js:5-29. -/
structure Logics where
  balancerV2FlashLoanLogic : LogicVal
  sushiswapV2SwapLogic : LogicVal
  uniswapV3SwapLogic : LogicVal
deriving DecidableEq, Repr

/-- All three bindings set to `MockLogic` (src/flashLoanBot.js:28). -/
def mockLogics : Logics := ⟨.mock, .mock, .mock⟩

/-- The loader (src/flashLoanBot.js:5-29).  `none` models a failing
`require('@protocolink/core')`; the catch block (lines 26-28) turns both a
failed require and a non-function `BalancerV2FlashLoanLogic` (line 25) into
the all-mock configuration.  The function is total: the program never
signals a startup error, it always proceeds with some logic triple. -/
def loadLogics (protocolink : Option ProtoModule) : Logics :=
  match protocolink with
  | none => mockLogics
  | some m =>
    let b := resolveLogic m.balancerV2FlashLoanLogic m.logicsBalancerV2FlashLoanLogic
      (m.createLogic.bind (fun f => f "balancer-v2-flash-loan"))
    let s := resolveLogic m.sushiswapV2SwapLogic m.logicsSushiswapV2SwapLogic
      (m.createLogic.bind (fun f => f "sushiswap-v2-swap"))
    let u := resolveLogic m.uniswapV3SwapLogic m.logicsUniswapV3SwapLogic
      (m.createLogic.bind (fun f => f "uniswap-v3-swap"))
    if b.isFunction then ⟨b, s, u⟩ else mockLogics

/-- One step of the printed Furucombo combo
(`outputFurucomboInstructions`, src/flashLoanBot.js:100-112). -/
inductive InstructionStep where
  | flashLoanCube (venue : String) (borrowAmount : Int) (token : Token)
  | swapCube (venue : String) (inputAmount : Int) (inputToken : Token)
      (outputAmount : Int) (outputToken : Token)
deriving DecidableEq, Repr

/-- `outputFurucomboInstructions(usdcBorrowed, ethReceived, usdcFinal)`
(src/flashLoanBot.js:100-112): the three cubes it prints, in print order.
The source receives the amounts already formatted by `formatUnits`; the
plan is embedded with the underlying integer amounts, formatting being a
display-only rendering of the same values. -/
def outputFurucomboInstructions (usdcBorrowed ethReceived usdcFinal : Int) :
    List InstructionStep :=
  [.flashLoanCube "Balancer V2" usdcBorrowed USDC,
   .swapCube "Sushiswap V2" usdcBorrowed USDC ethReceived ETH,
   .swapCube "Uniswap V3" ethReceived ETH usdcFinal USDC]

/-- The values a successful pass through the try block of
`checkArbitrageOpportunity` computes (src/flashLoanBot.js:62-94):
`borrowed` is `flashLoanQuote.amount`, `ethReceived` and `usdcReceived` the
two swap outputs, `profit = usdcReceived.sub(this.flashLoanAmount)`
(line 84), `profitable` the branch condition `profit.gt(0)` (line 85), and
`plan` the printed instructions (present exactly in the profitable branch). -/
structure EvalResult where
  borrowed : Int
  ethReceived : Int
  usdcReceived : Int
  profit : Int
  profitable : Bool
  plan : Option (List InstructionStep)
deriving DecidableEq, Repr

/-- A quotation call made by the evaluator, with the exact argument record
passed (src/flashLoanBot.js:66,72,79). -/
inductive CallEvent where
  | flashLoanCall (params : FlashLoanParams)
  | sushiswapCall (params : SwapParams)
  | uniswapCall (params : SwapParams)
deriving DecidableEq, Repr

/-- A console log event of `checkArbitrageOpportunity` and
`outputFurucomboInstructions`, with the data each line renders
(src/flashLoanBot.js:67,74,81,86,93,96,101-111). -/
inductive LogEvent where
  | flashLoanLog (amount : Int)
  | swap1Log (input output : Int)
  | swap2Log (input output : Int)
  | profitLog (profit : Int)
  | instructionsLog (steps : List InstructionStep)
  | noProfitLog
  | errorLog (message : String)
deriving DecidableEq, Repr

/-- Whether a log event is the profit line of src/flashLoanBot.js:86. -/
def LogEvent.isProfitLog : LogEvent → Bool
  | .profitLog _ => true
  | _ => false

/-- Outcome of the try block of `checkArbitrageOpportunity`
(src/flashLoanBot.js:62-94): the result or the propagating error, with the
quotation calls made and log lines emitted up to that point. -/
structure ChainOutput where
  outcome : Except String EvalResult
  calls : List CallEvent
  logs : List LogEvent
deriving Repr

/-- The try block of `checkArbitrageOpportunity` (src/flashLoanBot.js:62-94),
parameterized by `this.flashLoanAmount` and by the three logic instances.
A failing quotation call aborts the block immediately with that error; no
later call is made. -/
def evalChain (flashLoanAmt : Int) (p : Provider) : ChainOutput :=
  let flashLoanParams : FlashLoanParams := ⟨USDC, flashLoanAmt⟩
  match p.balancerV2FlashLoanLogic.getFlashLoanQuotation flashLoanParams with
  | .error e => ⟨.error e, [.flashLoanCall flashLoanParams], []⟩
  | .ok flashLoanQuote =>
    let swap1Params : SwapParams :=
      ⟨USDC, ETH, flashLoanQuote.amount, SUSHISWAP_V2_PAIR_ADDRESS⟩
    match p.sushiswapV2SwapLogic.getSwapQuotation swap1Params with
    | .error e =>
      ⟨.error e, [.flashLoanCall flashLoanParams, .sushiswapCall swap1Params],
       [.flashLoanLog flashLoanQuote.amount]⟩
    | .ok swap1Quote =>
      let ethReceived := swap1Quote.outputAmount
      let swap2Params : SwapParams :=
        ⟨ETH, USDC, ethReceived, UNISWAP_V3_POOL_ADDRESS⟩
      match p.uniswapV3SwapLogic.getSwapQuotation swap2Params with
      | .error e =>
        ⟨.error e,
         [.flashLoanCall flashLoanParams, .sushiswapCall swap1Params,
          .uniswapCall swap2Params],
         [.flashLoanLog flashLoanQuote.amount,
          .swap1Log flashLoanQuote.amount ethReceived]⟩
      | .ok swap2Quote =>
        let usdcReceived := swap2Quote.outputAmount
        let profit := usdcReceived - flashLoanAmt
        let steps := outputFurucomboInstructions flashLoanQuote.amount ethReceived usdcReceived
        ⟨.ok ⟨flashLoanQuote.amount, ethReceived, usdcReceived, profit,
              decide (0 < profit),
              if 0 < profit then some steps else none⟩,
         [.flashLoanCall flashLoanParams, .sushiswapCall swap1Params,
          .uniswapCall swap2Params],
         [.flashLoanLog flashLoanQuote.amount,
          .swap1Log flashLoanQuote.amount ethReceived,
          .swap2Log ethReceived usdcReceived] ++
         (if 0 < profit then [.profitLog profit, .instructionsLog steps]
          else [.noProfitLog])⟩

/-- What one invocation of `checkArbitrageOpportunity` leaves behind.  The
JS method itself has no return statement and never throws (the catch at
src/flashLoanBot.js:95-97 intercepts every error), so the caller always
observes a normal completion; the fields record its observable effects:
quotation calls, console logs, the values the try block computed (if it
completed), and the error the catch block logged (if it did not). -/
structure RunResult where
  calls : List CallEvent
  logs : List LogEvent
  result : Option EvalResult
  caughtError : Option String
deriving DecidableEq, Repr

/-- `checkArbitrageOpportunity` with its try/catch (src/flashLoanBot.js:61-98):
the catch block logs `error.message` (line 96) and falls through, so the
method is total — any quotation error ends up only in `logs`/`caughtError`,
never propagated to the caller. -/
def checkArbitrageOpportunity (flashLoanAmt : Int) (p : Provider) : RunResult :=
  match (evalChain flashLoanAmt p).outcome with
  | .ok r => ⟨(evalChain flashLoanAmt p).calls, (evalChain flashLoanAmt p).logs, some r, none⟩
  | .error e =>
    ⟨(evalChain flashLoanAmt p).calls,
     (evalChain flashLoanAmt p).logs ++ [.errorLog e], none, some e⟩

/-- A provider whose flash-loan quotation grants a different amount
(50 USDC) than the requested one; the cycle ends with 80 USDC. -/
def partialFillProvider : Provider :=
  ⟨⟨fun _ => .ok ⟨50000000⟩⟩, ⟨fun _ => .ok ⟨40000000000000000⟩⟩,
   ⟨fun _ => .ok ⟨80000000⟩⟩⟩

/-- A provider whose flash-loan quotation fails. -/
def flashFailProvider : Provider :=
  ⟨⟨fun _ => .error "QuoteUnavailable"⟩, ⟨fun _ => .ok ⟨40000000000000000⟩⟩,
   ⟨fun _ => .ok ⟨104000000⟩⟩⟩

/-- A provider whose swap-A (Sushiswap) quotation fails; the flash-loan
quotation echoes the requested amount. -/
def swapAFailProvider : Provider :=
  ⟨⟨fun params => .ok ⟨params.amount⟩⟩, ⟨fun _ => .error "QuoteUnavailable"⟩,
   ⟨fun _ => .ok ⟨104000000⟩⟩⟩

/-- A provider under which the cycle returns exactly the borrowed amount:
profit is exactly zero. -/
def zeroProfitProvider : Provider :=
  ⟨⟨fun params => .ok ⟨params.amount⟩⟩, ⟨fun _ => .ok ⟨40000000000000000⟩⟩,
   ⟨fun _ => .ok ⟨100000000⟩⟩⟩

/-- Scenario B of the spec: the final swap yields 99 USDC, one less than
borrowed — an unprofitable but successful evaluation. -/
def scenarioBProvider : Provider :=
  ⟨⟨fun params => .ok ⟨params.amount⟩⟩, ⟨fun _ => .ok ⟨40000000000000000⟩⟩,
   ⟨fun _ => .ok ⟨99000000⟩⟩⟩

/-- A `@protocolink/core` module exposing none of the expected logic
constructors and no `createLogic`. -/
def emptyProtoModule : ProtoModule := ⟨none, none, none, none, none, none, none⟩

/-- The `EvalResult` of the all-mock run (Scenario A). -/
def mockEvalResult : EvalResult :=
  ⟨100000000, 40000000000000000, 104000000, 4000000, true,
   some (outputFurucomboInstructions 100000000 40000000000000000 104000000)⟩

/-- The `EvalResult` of the zero-profit run. -/
def zeroProfitResult : EvalResult :=
  ⟨100000000, 40000000000000000, 100000000, 0, false, none⟩

/-- Inversion principle for a successful pass through the try block: the
three quotation calls succeeded in order, and the result, call trace and
log trace are exactly the ones built from the three quoted values. -/
theorem evalChain_ok_elim (a : Int) (p : Provider) (r : EvalResult)
    (h : (evalChain a p).outcome = .ok r) :
    ∃ (q : FlashLoanQuote) (s1 s2 : SwapQuote),
      p.balancerV2FlashLoanLogic.getFlashLoanQuotation ⟨USDC, a⟩ = .ok q ∧
      p.sushiswapV2SwapLogic.getSwapQuotation
        ⟨USDC, ETH, q.amount, SUSHISWAP_V2_PAIR_ADDRESS⟩ = .ok s1 ∧
      p.uniswapV3SwapLogic.getSwapQuotation
        ⟨ETH, USDC, s1.outputAmount, UNISWAP_V3_POOL_ADDRESS⟩ = .ok s2 ∧
      r = ⟨q.amount, s1.outputAmount, s2.outputAmount, s2.outputAmount - a,
           decide (0 < s2.outputAmount - a),
           if 0 < s2.outputAmount - a then
             some (outputFurucomboInstructions q.amount s1.outputAmount s2.outputAmount)
           else none⟩ ∧
      (evalChain a p).calls =
        [.flashLoanCall ⟨USDC, a⟩,
         .sushiswapCall ⟨USDC, ETH, q.amount, SUSHISWAP_V2_PAIR_ADDRESS⟩,
         .uniswapCall ⟨ETH, USDC, s1.outputAmount, UNISWAP_V3_POOL_ADDRESS⟩] ∧
      (evalChain a p).logs =
        [.flashLoanLog q.amount, .swap1Log q.amount s1.outputAmount,
         .swap2Log s1.outputAmount s2.outputAmount] ++
        (if 0 < s2.outputAmount - a then
          [.profitLog (s2.outputAmount - a),
           .instructionsLog (outputFurucomboInstructions q.amount s1.outputAmount s2.outputAmount)]
         else [.noProfitLog]) := by
  unfold evalChain at h ⊢
  cases hq : p.balancerV2FlashLoanLogic.getFlashLoanQuotation ⟨USDC, a⟩ with
  | error e => simp [hq] at h
  | ok q =>
    simp only [hq] at h ⊢
    cases hs1 : p.sushiswapV2SwapLogic.getSwapQuotation
        ⟨USDC, ETH, q.amount, SUSHISWAP_V2_PAIR_ADDRESS⟩ with
    | error e => simp [hs1] at h
    | ok s1 =>
      simp only [hs1] at h ⊢
      cases hs2 : p.uniswapV3SwapLogic.getSwapQuotation
          ⟨ETH, USDC, s1.outputAmount, UNISWAP_V3_POOL_ADDRESS⟩ with
      | error e => simp [hs2] at h
      | ok s2 =>
        simp only [hs2] at h ⊢
        simp only [Except.ok.injEq] at h
        exact ⟨q, s1, s2, by simp [hq], by simp [hs1], by simp [hs2], h.symm, rfl, rfl⟩

/-- The catch-less path of `checkArbitrageOpportunity`: when the try block
completes, the method's observables are the chain's calls and logs plus the
computed values, with no caught error. -/
theorem checkArbitrageOpportunity_ok (a : Int) (p : Provider) (r : EvalResult)
    (h : (evalChain a p).outcome = .ok r) :
    checkArbitrageOpportunity a p =
      ⟨(evalChain a p).calls, (evalChain a p).logs, some r, none⟩ := by
  simp [checkArbitrageOpportunity, h]

/-- The catch path of `checkArbitrageOpportunity` (src/flashLoanBot.js:95-97):
when the try block fails, the error is appended to the log and recorded, and
the method still completes normally. -/
theorem checkArbitrageOpportunity_caught (a : Int) (p : Provider) (e : String)
    (h : (evalChain a p).outcome = .error e) :
    checkArbitrageOpportunity a p =
      ⟨(evalChain a p).calls, (evalChain a p).logs ++ [.errorLog e], none, some e⟩ := by
  simp [checkArbitrageOpportunity, h]

/-- C1 counterexample: with a provider whose flash-loan quotation grants
50 USDC against the configured request of 100 USDC and whose cycle ends at
80 USDC, the code computes `profit = 80000000 - 100000000 = -20000000`
(src/flashLoanBot.js:84 subtracts `this.flashLoanAmount`), which differs
from `final.value - borrowed.value = 80000000 - 50000000 = 30000000`
claimed by the spec. -/
theorem profit_ignores_quoted_borrow_cex :
    (checkArbitrageOpportunity flashLoanAmount partialFillProvider).result =
      some ⟨50000000, 40000000000000000, 80000000, -20000000, false, none⟩ ∧
    ¬ ((-20000000 : Int) = 80000000 - 50000000) := by decide

/-- C1 amended: in every successful evaluation the computed profit equals
the final borrow-asset amount minus the CONFIGURED flash-loan amount
(`this.flashLoanAmount`); it equals `final - borrowed` only in the special
case where the flash-loan quotation echoes the requested amount. -/
theorem profit_eq_final_sub_configured (a : Int) (p : Provider) (r : EvalResult)
    (h : (evalChain a p).outcome = .ok r) :
    r.profit = r.usdcReceived - a ∧
    (r.borrowed = a → r.profit = r.usdcReceived - r.borrowed) := by
  obtain ⟨q, s1, s2, -, -, -, hr, -, -⟩ := evalChain_ok_elim a p r h
  subst hr
  refine ⟨rfl, fun hb => ?_⟩
  simp only at hb ⊢
  rw [hb]

/-- Witness for C1 amended, at the all-mock run. -/
theorem profit_eq_final_sub_configured_witness :
    (evalChain flashLoanAmount mockProvider).outcome = .ok mockEvalResult ∧
    (mockEvalResult.profit = mockEvalResult.usdcReceived - flashLoanAmount ∧
     (mockEvalResult.borrowed = flashLoanAmount →
       mockEvalResult.profit = mockEvalResult.usdcReceived - mockEvalResult.borrowed)) :=
  ⟨by decide, profit_eq_final_sub_configured flashLoanAmount mockProvider mockEvalResult (by decide)⟩

/-- C2 counterexample: when `require('@protocolink/core')` fails (`none`),
the loader silently binds all three logic slots to `MockLogic` and the
program proceeds — `loadLogics` is total, no startup error exists — and the
stub then produces quotations (here a flash-loan quote for the configured
amount), contradicting the claim that absence of a usable provider is a
startup-time `ConfigurationError` and that a stub never produces a
quotation. -/
theorem missing_provider_fallback_cex :
    loadLogics none = mockLogics ∧
    loadLogics (some emptyProtoModule) = mockLogics ∧
    mockGetFlashLoanQuotation ⟨USDC, flashLoanAmount⟩ = .ok ⟨100000000⟩ ∧
    (checkArbitrageOpportunity flashLoanAmount mockProvider).result.isSome = true := by
  decide

/-- C2 amended: when the provider library is missing, or present but
exposing none of the expected logic constructors and no `createLogic`, the
loader silently substitutes the `MockLogic` stub for all three logic slots
and the program continues; no error is signalled. -/
theorem loadLogics_silently_substitutes_mock :
    loadLogics none = mockLogics ∧
    ∀ m : ProtoModule,
      m.balancerV2FlashLoanLogic = none → m.logicsBalancerV2FlashLoanLogic = none →
      m.sushiswapV2SwapLogic = none → m.logicsSushiswapV2SwapLogic = none →
      m.uniswapV3SwapLogic = none → m.logicsUniswapV3SwapLogic = none →
      m.createLogic = none →
      loadLogics (some m) = mockLogics := by
  refine ⟨rfl, fun m h1 h2 h3 h4 h5 h6 h7 => ?_⟩
  simp [loadLogics, resolveLogic, h1, h2, h3, h4, h5, h6, h7, LogicVal.isFunction, mockLogics]

/-- Witness for C2 amended, at the module exposing nothing. -/
theorem loadLogics_silently_substitutes_mock_witness :
    loadLogics (some emptyProtoModule) = mockLogics :=
  loadLogics_silently_substitutes_mock.2 emptyProtoModule rfl rfl rfl rfl rfl rfl rfl

/-- C3 counterexample: with a provider whose flash-loan quotation fails,
the try block does fail with the error, but `checkArbitrageOpportunity`
catches it (src/flashLoanBot.js:95-97), logs it, and completes normally —
its embedding is total into `RunResult`, so nothing is propagated to the
caller, contradicting the claim that `evaluate()` itself fails with
`QuoteUnavailable`. -/
theorem quote_failure_swallowed_cex :
    (evalChain flashLoanAmount flashFailProvider).outcome = .error "QuoteUnavailable" ∧
    checkArbitrageOpportunity flashLoanAmount flashFailProvider =
      ⟨[.flashLoanCall ⟨USDC, 100000000⟩], [.errorLog "QuoteUnavailable"],
       none, some "QuoteUnavailable"⟩ := by decide

/-- C3 amended: whenever a quotation call fails, the quotation chain aborts
immediately with exactly that error (no retry, no fabricated quote), and
`checkArbitrageOpportunity` catches it, logs it as its final log line,
records it, produces no result — and returns normally instead of
propagating the error to its caller. -/
theorem quote_failure_caught_and_logged (a : Int) (p : Provider) (e : String)
    (h : (evalChain a p).outcome = .error e) :
    checkArbitrageOpportunity a p =
      ⟨(evalChain a p).calls, (evalChain a p).logs ++ [.errorLog e],
       none, some e⟩ :=
  checkArbitrageOpportunity_caught a p e h

/-- Witness for C3 amended, at the failing flash-loan provider. -/
theorem quote_failure_caught_and_logged_witness :
    (evalChain flashLoanAmount flashFailProvider).outcome = .error "QuoteUnavailable" ∧
    checkArbitrageOpportunity flashLoanAmount flashFailProvider =
      ⟨(evalChain flashLoanAmount flashFailProvider).calls,
       (evalChain flashLoanAmount flashFailProvider).logs ++ [.errorLog "QuoteUnavailable"],
       none, some "QuoteUnavailable"⟩ :=
  ⟨by decide,
   quote_failure_caught_and_logged flashLoanAmount flashFailProvider "QuoteUnavailable" (by decide)⟩

/-- C4: in every successful evaluation the result is marked profitable
exactly when the computed profit is strictly positive (the `profit.gt(0)`
test of src/flashLoanBot.js:85); in particular a profit of exactly zero is
marked not profitable. -/
theorem profitable_iff_positive_profit (a : Int) (p : Provider) (r : EvalResult)
    (h : (evalChain a p).outcome = .ok r) :
    (r.profitable = true ↔ 0 < r.profit) ∧
    (r.profit = 0 → r.profitable = false) := by
  obtain ⟨q, s1, s2, -, -, -, hr, -, -⟩ := evalChain_ok_elim a p r h
  subst hr
  refine ⟨by simp, fun h0 => ?_⟩
  simp only at h0
  simp [h0]

/-- Witness for C4, at the zero-profit boundary run. -/
theorem profitable_iff_positive_profit_witness :
    (evalChain flashLoanAmount zeroProfitProvider).outcome = .ok zeroProfitResult ∧
    ((zeroProfitResult.profitable = true ↔ 0 < zeroProfitResult.profit) ∧
     (zeroProfitResult.profit = 0 → zeroProfitResult.profitable = false)) :=
  ⟨by decide,
   profitable_iff_positive_profit flashLoanAmount zeroProfitProvider zeroProfitResult (by decide)⟩

/-- C5: in every successful evaluation exactly three quotation calls are
made, in order; the swap-1 call receives the flash-loan quotation's
borrowed amount with the borrow token as input (src/flashLoanBot.js:71),
and the swap-2 call receives swap-1's output amount with the intermediate
token as input (src/flashLoanBot.js:78) — no arithmetic in between. -/
theorem quotation_calls_chained (a : Int) (p : Provider) (r : EvalResult)
    (h : (evalChain a p).outcome = .ok r) :
    (evalChain a p).calls =
      [.flashLoanCall ⟨USDC, a⟩,
       .sushiswapCall ⟨USDC, ETH, r.borrowed, SUSHISWAP_V2_PAIR_ADDRESS⟩,
       .uniswapCall ⟨ETH, USDC, r.ethReceived, UNISWAP_V3_POOL_ADDRESS⟩] := by
  obtain ⟨q, s1, s2, -, -, -, hr, hcalls, -⟩ := evalChain_ok_elim a p r h
  subst hr
  exact hcalls

/-- Witness for C5, at the all-mock run. -/
theorem quotation_calls_chained_witness :
    (evalChain flashLoanAmount mockProvider).outcome = .ok mockEvalResult ∧
    (evalChain flashLoanAmount mockProvider).calls =
      [.flashLoanCall ⟨USDC, flashLoanAmount⟩,
       .sushiswapCall ⟨USDC, ETH, mockEvalResult.borrowed, SUSHISWAP_V2_PAIR_ADDRESS⟩,
       .uniswapCall ⟨ETH, USDC, mockEvalResult.ethReceived, UNISWAP_V3_POOL_ADDRESS⟩] :=
  ⟨by decide, quotation_calls_chained flashLoanAmount mockProvider mockEvalResult (by decide)⟩

/-- C6: in every successful evaluation an instruction plan is present iff
the result is marked profitable; an unprofitable result carries no plan,
and a profitable one carries exactly the 3-step plan ordered flash-loan,
swap-A (Sushiswap), swap-B (Uniswap) (src/flashLoanBot.js:85-94,100-112). -/
theorem plan_iff_profitable (a : Int) (p : Provider) (r : EvalResult)
    (h : (evalChain a p).outcome = .ok r) :
    (r.plan.isSome = true ↔ r.profitable = true) ∧
    (r.profitable = false → r.plan = none) ∧
    (r.profitable = true → r.plan =
      some [.flashLoanCube "Balancer V2" r.borrowed USDC,
            .swapCube "Sushiswap V2" r.borrowed USDC r.ethReceived ETH,
            .swapCube "Uniswap V3" r.ethReceived ETH r.usdcReceived USDC]) := by
  obtain ⟨q, s1, s2, -, -, -, hr, -, -⟩ := evalChain_ok_elim a p r h
  subst hr
  by_cases hp : 0 < s2.outputAmount - a
  · simp [hp, outputFurucomboInstructions]
  · simp [hp]

/-- Witness for C6, at the all-mock (profitable) run. -/
theorem plan_iff_profitable_witness :
    (evalChain flashLoanAmount mockProvider).outcome = .ok mockEvalResult ∧
    ((mockEvalResult.plan.isSome = true ↔ mockEvalResult.profitable = true) ∧
     (mockEvalResult.profitable = false → mockEvalResult.plan = none) ∧
     (mockEvalResult.profitable = true → mockEvalResult.plan =
       some [.flashLoanCube "Balancer V2" mockEvalResult.borrowed USDC,
             .swapCube "Sushiswap V2" mockEvalResult.borrowed USDC mockEvalResult.ethReceived ETH,
             .swapCube "Uniswap V3" mockEvalResult.ethReceived ETH mockEvalResult.usdcReceived USDC])) :=
  ⟨by decide, plan_iff_profitable flashLoanAmount mockProvider mockEvalResult (by decide)⟩

/-- C7 counterexample: Scenario B (final swap yields 99 USDC) is a
successful evaluation with profit -1000000, yet the method surfaces
nothing of the sort to its caller: it has no return statement (embedded as
a total function whose only outputs are the observables below), and its
log output for this run contains no profit line at all — only
`'No profit detected.'` — so no fully populated ArbitrageResult carrying
the signed profit reaches the caller. -/
theorem result_not_surfaced_cex :
    checkArbitrageOpportunity flashLoanAmount scenarioBProvider =
      ⟨[.flashLoanCall ⟨USDC, 100000000⟩,
        .sushiswapCall ⟨USDC, ETH, 100000000, SUSHISWAP_V2_PAIR_ADDRESS⟩,
        .uniswapCall ⟨ETH, USDC, 40000000000000000, UNISWAP_V3_POOL_ADDRESS⟩],
       [.flashLoanLog 100000000, .swap1Log 100000000 40000000000000000,
        .swap2Log 40000000000000000 99000000, .noProfitLog],
       some ⟨100000000, 40000000000000000, 99000000, -1000000, false, none⟩, none⟩ ∧
    ((checkArbitrageOpportunity flashLoanAmount scenarioBProvider).logs.all
      (fun ev => ! ev.isProfitLog)) = true := by decide

/-- C7 amended: every successful evaluation computes the full set of values
internally — borrowed, intermediate and final amounts, signed profit,
profitable flag — and logs the three amounts, but logs the profit value and
plan only when the profit is positive; the method returns no value to its
caller. -/
theorem successful_run_logs_amounts (a : Int) (p : Provider) (r : EvalResult)
    (h : (evalChain a p).outcome = .ok r) :
    checkArbitrageOpportunity a p =
      ⟨(evalChain a p).calls,
       [.flashLoanLog r.borrowed, .swap1Log r.borrowed r.ethReceived,
        .swap2Log r.ethReceived r.usdcReceived] ++
       (if 0 < r.profit then
         [.profitLog r.profit,
          .instructionsLog (outputFurucomboInstructions r.borrowed r.ethReceived r.usdcReceived)]
        else [.noProfitLog]),
       some r, none⟩ := by
  obtain ⟨q, s1, s2, -, -, -, hr, -, hlogs⟩ := evalChain_ok_elim a p r h
  rw [checkArbitrageOpportunity_ok a p r h, hlogs]
  subst hr
  rfl

/-- Witness for C7 amended, at the all-mock run. -/
theorem successful_run_logs_amounts_witness :
    (evalChain flashLoanAmount mockProvider).outcome = .ok mockEvalResult ∧
    checkArbitrageOpportunity flashLoanAmount mockProvider =
      ⟨(evalChain flashLoanAmount mockProvider).calls,
       [.flashLoanLog mockEvalResult.borrowed,
        .swap1Log mockEvalResult.borrowed mockEvalResult.ethReceived,
        .swap2Log mockEvalResult.ethReceived mockEvalResult.usdcReceived] ++
       (if 0 < mockEvalResult.profit then
         [.profitLog mockEvalResult.profit,
          .instructionsLog (outputFurucomboInstructions mockEvalResult.borrowed
            mockEvalResult.ethReceived mockEvalResult.usdcReceived)]
        else [.noProfitLog]),
       some mockEvalResult, none⟩ :=
  ⟨by decide, successful_run_logs_amounts flashLoanAmount mockProvider mockEvalResult (by decide)⟩

/-- C8: when the flash-loan quotation succeeds and the swap-A (Sushiswap)
quotation fails, the run makes exactly two quotation calls — the swap-B
(Uniswap) call never happens — produces no result and no plan, and
completes normally with the error caught and logged. -/
theorem swapA_failure_aborts_run (a : Int) (p : Provider) (q : FlashLoanQuote) (e : String)
    (hq : p.balancerV2FlashLoanLogic.getFlashLoanQuotation ⟨USDC, a⟩ = .ok q)
    (hs : p.sushiswapV2SwapLogic.getSwapQuotation
      ⟨USDC, ETH, q.amount, SUSHISWAP_V2_PAIR_ADDRESS⟩ = .error e) :
    checkArbitrageOpportunity a p =
      ⟨[.flashLoanCall ⟨USDC, a⟩,
        .sushiswapCall ⟨USDC, ETH, q.amount, SUSHISWAP_V2_PAIR_ADDRESS⟩],
       [.flashLoanLog q.amount, .errorLog e], none, some e⟩ := by
  have hchain : evalChain a p =
      ⟨.error e,
       [.flashLoanCall ⟨USDC, a⟩,
        .sushiswapCall ⟨USDC, ETH, q.amount, SUSHISWAP_V2_PAIR_ADDRESS⟩],
       [.flashLoanLog q.amount]⟩ := by
    unfold evalChain
    simp [hq, hs]
  simp [checkArbitrageOpportunity, hchain]

/-- Witness for C8, at a provider failing on swap-A. -/
theorem swapA_failure_aborts_run_witness :
    swapAFailProvider.balancerV2FlashLoanLogic.getFlashLoanQuotation
      ⟨USDC, flashLoanAmount⟩ = .ok ⟨100000000⟩ ∧
    swapAFailProvider.sushiswapV2SwapLogic.getSwapQuotation
      ⟨USDC, ETH, 100000000, SUSHISWAP_V2_PAIR_ADDRESS⟩ = .error "QuoteUnavailable" ∧
    checkArbitrageOpportunity flashLoanAmount swapAFailProvider =
      ⟨[.flashLoanCall ⟨USDC, flashLoanAmount⟩,
        .sushiswapCall ⟨USDC, ETH, 100000000, SUSHISWAP_V2_PAIR_ADDRESS⟩],
       [.flashLoanLog 100000000, .errorLog "QuoteUnavailable"],
       none, some "QuoteUnavailable"⟩ :=
  ⟨by decide, by decide,
   swapA_failure_aborts_run flashLoanAmount swapAFailProvider ⟨100000000⟩ "QuoteUnavailable"
     (by decide) (by decide)⟩

/-- C9: the all-mock run is exactly Scenario A — borrow 100000000 units of
the 6-decimal asset, swap-A yields 40000000000000000 units of the
18-decimal asset, swap-B yields 104000000 units back, profit is exactly
4000000 units, the result is profitable, and the 3-step plan is produced,
all in exact integer arithmetic. -/
theorem scenarioA_mock_run :
    checkArbitrageOpportunity flashLoanAmount mockProvider =
      ⟨[.flashLoanCall ⟨USDC, 100000000⟩,
        .sushiswapCall ⟨USDC, ETH, 100000000, SUSHISWAP_V2_PAIR_ADDRESS⟩,
        .uniswapCall ⟨ETH, USDC, 40000000000000000, UNISWAP_V3_POOL_ADDRESS⟩],
       [.flashLoanLog 100000000, .swap1Log 100000000 40000000000000000,
        .swap2Log 40000000000000000 104000000, .profitLog 4000000,
        .instructionsLog [.flashLoanCube "Balancer V2" 100000000 USDC,
                          .swapCube "Sushiswap V2" 100000000 USDC 40000000000000000 ETH,
                          .swapCube "Uniswap V3" 40000000000000000 ETH 104000000 USDC]],
       some ⟨100000000, 40000000000000000, 104000000, 4000000, true,
             some [.flashLoanCube "Balancer V2" 100000000 USDC,
                   .swapCube "Sushiswap V2" 100000000 USDC 40000000000000000 ETH,
                   .swapCube "Uniswap V3" 40000000000000000 ETH 104000000 USDC]⟩,
       none⟩ := by decide

/-- C10: `MockLogic.getSwapQuotation` ignores the requested amount — any
two calls whose input tokens share a symbol get the identical output —
returning 40000000000000000 whenever the input token's symbol is `'USDC'`
and 104000000 for every other input token. -/
theorem mock_swap_quotation_amount_independent :
    (∀ p1 p2 : SwapParams, p1.inputToken.symbol = p2.inputToken.symbol →
      mockGetSwapQuotation p1 = mockGetSwapQuotation p2) ∧
    (∀ q : SwapParams, q.inputToken.symbol = "USDC" →
      mockGetSwapQuotation q = .ok ⟨40000000000000000⟩) ∧
    (∀ q : SwapParams, q.inputToken.symbol ≠ "USDC" →
      mockGetSwapQuotation q = .ok ⟨104000000⟩) := by
  refine ⟨fun p1 p2 hsym => ?_, fun q hu => ?_, fun q hu => ?_⟩
  · unfold mockGetSwapQuotation
    rw [hsym]
  · simp [mockGetSwapQuotation, hu]
  · simp [mockGetSwapQuotation, hu]

/-- Witness for C10: two USDC-input calls with different amounts agree, a
USDC-input call returns the fixed ETH amount, an ETH-input call returns the
fixed USDC amount. -/
theorem mock_swap_quotation_amount_independent_witness :
    mockGetSwapQuotation ⟨USDC, ETH, 1, SUSHISWAP_V2_PAIR_ADDRESS⟩ =
      mockGetSwapQuotation ⟨USDC, ETH, 999999999, SUSHISWAP_V2_PAIR_ADDRESS⟩ ∧
    mockGetSwapQuotation ⟨USDC, ETH, 1, SUSHISWAP_V2_PAIR_ADDRESS⟩ = .ok ⟨40000000000000000⟩ ∧
    mockGetSwapQuotation ⟨ETH, USDC, 5, UNISWAP_V3_POOL_ADDRESS⟩ = .ok ⟨104000000⟩ :=
  ⟨mock_swap_quotation_amount_independent.1
      ⟨USDC, ETH, 1, SUSHISWAP_V2_PAIR_ADDRESS⟩
      ⟨USDC, ETH, 999999999, SUSHISWAP_V2_PAIR_ADDRESS⟩ rfl,
   mock_swap_quotation_amount_independent.2.1
      ⟨USDC, ETH, 1, SUSHISWAP_V2_PAIR_ADDRESS⟩ rfl,
   mock_swap_quotation_amount_independent.2.2
      ⟨ETH, USDC, 5, UNISWAP_V3_POOL_ADDRESS⟩ (by decide)⟩
